import Mathlib

/-!
Verification of the pysox process-invocation and output-parsing layer
(`sox/core.py`, `sox/file_info.py`).

The Python code is shallowly embedded: strings are Lean `String`s
(manipulated through their underlying `List Char`), CPython `float`
values are modelled by `PyFloat` (an exact rational, NaN, or a signed
infinity — decimal parsing and the small multiplications used here are
exact, so rationals are a faithful carrier), raised exceptions are
modelled with `Except`, and the outcome of launching the external
`sox`/`soxi` executable is passed in explicitly as an oracle value, so
that theorems quantify over every possible behaviour of the external
process.
-/

/-! ## Python string primitives (over `List Char`) -/

/-- ASCII lower-casing of one character (`str.lower` restricted to the
ASCII range, which is all the code below ever compares against). -/
def charLower (c : Char) : Char :=
  if 'A' ≤ c ∧ c ≤ 'Z' then Char.ofNat (c.toNat + 32) else c

/-- ASCII upper-casing of one character (`str.upper` on the ASCII range). -/
def charUpper (c : Char) : Char :=
  if 'a' ≤ c ∧ c ≤ 'z' then Char.ofNat (c.toNat - 32) else c

/-- `str.lstrip(chars)` on a character list. -/
def lstripC (cs : List Char) (l : List Char) : List Char :=
  l.dropWhile (fun c => cs.contains c)

/-- `str.rstrip(chars)` on a character list. -/
def rstripC (cs : List Char) (l : List Char) : List Char :=
  (l.reverse.dropWhile (fun c => cs.contains c)).reverse

/-- `str.strip(chars)` on a character list: both ends are stripped. -/
def stripC (cs : List Char) (l : List Char) : List Char :=
  rstripC cs (lstripC cs l)

/-- `str.strip(chars)` on a `String`. -/
def pyStrip (cs : List Char) (s : String) : String :=
  ⟨stripC cs s.data⟩

/-- `str.split(sep)` for a one-character separator: splitting never
drops empty fields, and the empty string splits to `[[]]`. -/
def splitOnC (sep : Char) : List Char → List (List Char)
  | [] => [[]]
  | c :: cs =>
    if c = sep then [] :: splitOnC sep cs
    else
      match splitOnC sep cs with
      | [] => [[c]]
      | h :: t => (c :: h) :: t

/-- `str.lower` (ASCII). -/
def pyLower (s : String) : String :=
  ⟨s.data.map charLower⟩

/-! ## CPython floats -/

/-- A CPython `float` as produced by the parsing done in this library:
an exact rational, a NaN, or a signed infinity.  All decimal literals
and the `* 1000.0 ** k` scalings in `file_info.py` are exact on the
rationals, so no rounding model is needed. -/
inductive PyFloat
  | nan
  | inf (neg : Bool)
  | val (q : ℚ)
deriving DecidableEq

/-- Float multiplication `a * b` (only the cases reachable from the
embedded code matter; NaN is absorbing, infinity times zero is NaN). -/
def PyFloat.mul : PyFloat → PyFloat → PyFloat
  | .nan, _ => .nan
  | _, .nan => .nan
  | .inf s, .inf t => .inf (xor s t)
  | .inf s, .val q => if q = 0 then .nan else .inf (xor s (decide (q < 0)))
  | .val q, .inf s => if q = 0 then .nan else .inf (xor s (decide (q < 0)))
  | .val a, .val b => .val (a * b)

/-- Float comparison `a >= b`: any comparison involving NaN is false. -/
def PyFloat.ge : PyFloat → PyFloat → Bool
  | .nan, _ => false
  | _, .nan => false
  | .inf s, .inf t => !(s && !t)
  | .inf s, .val _ => !s
  | .val _, .inf t => t
  | .val a, .val b => decide (b ≤ a)

/-- Float equality test against `0.0` (`x == 0.0`): NaN and the
infinities compare unequal to zero. -/
def PyFloat.eqZero : PyFloat → Bool
  | .val q => decide (q = 0)
  | _ => false

/-! ## Python numeric-literal parsing (`float(...)`, `int(...)`) -/

/-- Numeric value of a digit run. -/
def digitsVal (l : List Char) : ℕ :=
  l.foldl (fun a c => a * 10 + (c.toNat - 48)) 0

/-- ASCII whitespace stripped by `float(...)` / `int(...)`. -/
def pyWhitespace : List Char := [' ', '\t', '\n', '\r', '\x0b', '\x0c']

/-- Strip one optional leading sign, returning (is-negative, rest). -/
def splitSign : List Char → Bool × List Char
  | '-' :: t => (true, t)
  | '+' :: t => (false, t)
  | t => (false, t)

/-- Parse the unsigned decimal part `digits [. digits]` of a float
literal, returning its exact value and the unconsumed remainder;
at least one digit must be present. -/
def parseDec (l : List Char) : Option (ℚ × List Char) :=
  let ip := l.takeWhile Char.isDigit
  let r1 := l.dropWhile Char.isDigit
  match r1 with
  | '.' :: r2 =>
    let fp := r2.takeWhile Char.isDigit
    let r3 := r2.dropWhile Char.isDigit
    if ip.isEmpty && fp.isEmpty then none
    else some ((digitsVal ip : ℚ) + (digitsVal fp : ℚ) / (10 : ℚ) ^ fp.length, r3)
  | _ => if ip.isEmpty then none else some ((digitsVal ip : ℚ), r1)

/-- Parse an optional exponent suffix `[eE][+-]digits` and apply it to
the mantissa; anything else left over makes the literal invalid. -/
def parseExp (m : ℚ) : List Char → Option ℚ
  | [] => some m
  | c :: r =>
    if c = 'e' ∨ c = 'E' then
      let s := splitSign r
      let ed := s.2.takeWhile Char.isDigit
      if ed.isEmpty || !(s.2.dropWhile Char.isDigit).isEmpty then none
      else some (if s.1 then m / (10 : ℚ) ^ digitsVal ed else m * (10 : ℚ) ^ digitsVal ed)
    else none

/-- CPython `float(str)` on a character list: strips whitespace,
accepts an optional sign, the literals `nan` / `inf` / `infinity`
(case-insensitive), and decimal literals with optional fraction and
exponent.  `none` models a raised `ValueError`. -/
def pyParseFloatC (l : List Char) : Option PyFloat :=
  let l1 := stripC pyWhitespace l
  let s := splitSign l1
  let low := s.2.map charLower
  if low = ['n', 'a', 'n'] then some .nan
  else if low = ['i', 'n', 'f'] ∨ low = ['i', 'n', 'f', 'i', 'n', 'i', 't', 'y'] then
    some (.inf s.1)
  else
    match parseDec s.2 with
    | none => none
    | some (m, rest) =>
      match parseExp m rest with
      | none => none
      | some q => some (.val (if s.1 then -q else q))

/-- CPython `float(str)` on a `String`. -/
def pyParseFloat (s : String) : Option PyFloat :=
  pyParseFloatC s.data

/-- CPython `int(str)`: strips whitespace, optional sign, then a
non-empty digit run and nothing else.  `none` models `ValueError`. -/
def pyParseInt (s : String) : Option ℤ :=
  let l := stripC pyWhitespace s.data
  let sg := splitSign l
  if sg.2.isEmpty || !(sg.2.all Char.isDigit) then none
  else some (if sg.1 then -(digitsVal sg.2 : ℤ) else (digitsVal sg.2 : ℤ))

/-! ## Exceptions raised by the embedded code -/

/-- The Python exception kinds reachable in the embedded fragment. -/
inductive PyError
  | valueError
  | ioError
  | attributeError
  | indexError
deriving DecidableEq

/-! ## `sox/core.py`: the Process Runner -/

/-- Argument-list normalization shared (verbatim, up to the canonical
name) by `core.sox` (lines 75-78) and `core.play` (lines 207-210):
`if args[0].lower() != canon: args.insert(0, canon) else: args[0] = canon`.
On an empty list `args[0]` raises `IndexError` (uncaught: it occurs
before the `try` block). -/
def normalize_args (canon : String) : List String → Except PyError (List String)
  | [] => .error .indexError
  | a :: rest =>
    if pyLower a ≠ canon then .ok (canon :: a :: rest) else .ok (canon :: rest)

/-- A 2-D numpy array of samples, by dimensions and entry function
(entries at indices outside `rows × cols` are never consulted). -/
structure NpArray where
  rows : ℕ
  cols : ℕ
  entry : ℕ → ℕ → ℤ

/-- `a.T`: the transposed view. -/
def NpArray.T (a : NpArray) : NpArray :=
  ⟨a.cols, a.rows, fun i j => a.entry j i⟩

/-- `a.tobytes(order="C")`, at the granularity of samples: the
row-major element sequence.  Each element stands for its fixed-width
little-endian byte encoding, which is applied element-wise and
order-preserving, so equality of byte strings is equality of these
sequences. -/
def tobytesC (a : NpArray) : List ℤ :=
  (List.range a.rows).flatMap fun i => (List.range a.cols).map fun j => a.entry i j

/-- `a.tobytes(order="F")`: the column-major (Fortran-order) element
sequence. -/
def tobytesF (a : NpArray) : List ℤ :=
  tobytesC a.T

/-- The byte payload `core.sox` writes to the subprocess's stdin when
`src_array` is an ndarray (core.py line 102):
`src_array.T.tobytes(order="F")`. -/
def sox_stdin_bytes (src_array : NpArray) : List ℤ :=
  tobytesF src_array.T

/-- The outcome of `subprocess.Popen` + `communicate` for one launch
attempt, as seen by `core.sox`.  Byte strings on the two output pipes
are identified with their decoded text (no claim depends on the byte
level of stdout/stderr), so `.decode("utf-8")` is the identity here. -/
structure SpawnOk where
  returncode : ℤ
  stdout : String
  stderr : String

/-- The `src_array` parameter of `core.sox`: `None`, an `np.ndarray`,
or a value of any other type (which makes line 105 raise `TypeError`). -/
inductive Payload
  | noArray
  | ndarray (a : NpArray)
  | other

/-- The `out` component of `core.sox`'s result: decoded text when
`decode_out_with_utf` was true on the no-payload path, raw bytes
otherwise. -/
inductive OutVal
  | str (s : String)
  | bytes (b : String)
deriving DecidableEq

/-- `core.sox` (lines 80-117), from the `try` block on: given the
launch outcome (`spawn = none` models `OSError` raised by `Popen`,
e.g. executable not found), the payload and the decode flag, return
the `(returncode, out, err)` triple.  Both `except` clauses fall
through to `return 1, None, None`. -/
def soxRun (spawn : Option SpawnOk) (src_array : Payload)
    (decode_out_with_utf : Bool) : ℤ × Option OutVal × Option String :=
  match src_array, spawn with
  | .other, _ => (1, none, none)
  | _, none => (1, none, none)
  | .noArray, some p =>
    (p.returncode,
     some (if decode_out_with_utf then .str p.stdout else .bytes p.stdout),
     some p.stderr)
  | .ndarray _, some p => (p.returncode, some (.bytes p.stdout), some p.stderr)

/-- `core.SOXI_ARGS` (line 15). -/
def SOXI_ARGS : List String := ["B", "b", "c", "a", "D", "e", "t", "s", "r"]

/-- Outcome of `subprocess.check_output` in `core.soxi`: the captured
output, or a `CalledProcessError` carrying the tool's exit code. -/
inductive CheckOutputR
  | ok (out : String)
  | calledProcessError (returncode : ℤ)

/-- The error outcomes of `core.soxi`: `ValueError` for an invalid
field code (raised before any process is launched), `SoxiError`
carrying the exit code reported by the tool. -/
inductive SoxiExn
  | valueError
  | soxiError (code : ℤ)
deriving DecidableEq

/-- `core.soxi` (lines 153-186): validates the field code against
`SOXI_ARGS`, then runs `sox --i -<argument> <filepath>` (the launch
behaviour is the `check_output` oracle), maps `CalledProcessError` to
`SoxiError` with the exit code, and strips the characters `\n` and
`\r` from both ends of a successful reply (`str.strip`). -/
def soxi (check_output : List String → CheckOutputR)
    (filepath argument : String) : Except SoxiExn String :=
  if argument ∉ SOXI_ARGS then .error .valueError
  else
    match check_output ["sox", "--i", "-" ++ argument, filepath] with
    | .calledProcessError rc => .error (.soxiError rc)
    | .ok shell_output => .ok (pyStrip ['\n', '\r'] shell_output)

/-! ## `sox/file_info.py`: typed metadata wrappers -/

/-- `file_info.bitdepth` (lines 31-34), applied to the raw `soxi -b`
reply: `if output == "0": return None` else `return int(output)`
(`int` failure raises `ValueError`). -/
def bitdepth_wrap (output : String) : Except PyError (Option ℤ) :=
  if output = "0" then .ok none
  else
    match pyParseInt output with
    | some n => .ok (some n)
    | none => .error .valueError

/-- `file_info.num_samples` (lines 187-190), applied to the raw
`soxi -s` reply: same shape as `bitdepth`. -/
def num_samples_wrap (output : String) : Except PyError (Option ℤ) :=
  if output = "0" then .ok none
  else
    match pyParseInt output with
    | some n => .ok (some n)
    | none => .error .valueError

/-- `file_info.channels` (line 85), applied to the raw `soxi -c`
reply: `return int(output)` with no sentinel handling. -/
def channels_wrap (output : String) : Except PyError ℤ :=
  match pyParseInt output with
  | some n => .ok n
  | none => .error .valueError

/-- `file_info.duration` (lines 125-128), applied to the raw `soxi -D`
reply: `if float(output) == 0.0: return None` else `return
float(output)`. -/
def duration_wrap (output : String) : Except PyError (Option PyFloat) :=
  match pyParseFloat output with
  | none => .error .valueError
  | some f => if f.eqZero then .ok none else .ok (some f)

/-- `"\0KMGTPEZY"` from `file_info.bitrate` (line 57). -/
def greek_list : List Char := ['\x00', 'K', 'M', 'G', 'T', 'P', 'E', 'Z', 'Y']

/-- `list.index`-style first index of an element (the uses below are
guarded by membership). -/
def idxOfC (c : Char) : List Char → ℕ
  | [] => 0
  | x :: xs => if x = c then 0 else idxOfC c xs + 1

/-- `file_info.bitrate` (lines 55-66), applied to the raw `soxi -B`
reply: strips `\r\n`, reads the last character (an empty string makes
`output[-1]` raise `IndexError`), maps the literal `"0"` to `None`,
multiplies `float(output[:-1])` by `1000.0 ** index` when the
upper-cased last character occurs in `"\0KMGTPEZY"`, and otherwise
returns `float(output[:-1])` (note: also dropping the last character
in that branch). -/
def bitrate_wrap (raw : String) : Except PyError (Option PyFloat) :=
  let output := stripC ['\r', '\n'] raw.data
  match output.getLast? with
  | none => .error .indexError
  | some last =>
    let suffix := charUpper last
    if output = ['0'] then .ok none
    else if greek_list.contains suffix then
      match pyParseFloatC output.dropLast with
      | none => .error .valueError
      | some f =>
        .ok (some (f.mul (.val ((1000 : ℚ) ^ idxOfC suffix greek_list))))
    else
      match pyParseFloatC output.dropLast with
      | none => .error .valueError
      | some f => .ok (some f)

/-! ## `sox/file_info.py`: the statistics parser and `silent` -/

/-- Python `dict` assignment on an association list: an existing key
is overwritten in place (its position is kept), a new key is appended
at the end. -/
def dictSet (k : String) (v : Option PyFloat) :
    List (String × Option PyFloat) → List (String × Option PyFloat)
  | [] => [(k, v)]
  | (k', v') :: rest =>
    if k' = k then (k, v) :: rest else (k', v') :: dictSet k v rest

/-- `file_info._parse_stat` (lines 408-434): split the report on
newlines; a line splitting on `":"` into exactly two parts contributes
the entry (verbatim key, `float` of the space-stripped value, `None`
on `ValueError`); every other line contributes nothing. -/
def parse_stat (stat_output : String) : List (String × Option PyFloat) :=
  (splitOnC '\n' stat_output.data).foldl
    (fun stat_dict line =>
      match splitOnC ':' line with
      | [key, v] => dictSet ⟨key⟩ (pyParseFloatC (stripC [' '] v)) stat_dict
      | _ => stat_dict)
    []

/-- `file_info._stat_call` (lines 400-405), downstream of the sox
invocation: takes the `err` component of the `core.sox` result and
applies `.replace("\r", "")` when it is not `None`. -/
def stat_call (sox_result : ℤ × Option OutVal × Option String) : Option String :=
  match sox_result.2.2 with
  | some s => some ⟨s.data.filter (fun c => c ≠ '\r')⟩
  | none => none

/-- `file_info.stat` (lines 382-384): `_parse_stat(stat_output)`.
When `_stat_call` returned `None`, the very first operation
`stat_output.split("\n")` raises `AttributeError` (`None` has no
`split`), so no dictionary is ever produced. -/
def stat_model (stat_output : Option String) :
    Except PyError (List (String × Option PyFloat)) :=
  match stat_output with
  | some s => .ok (parse_stat s)
  | none => .error .attributeError

/-- The whole `stat` pipeline as a function of the launch outcome:
`stat` calls `sox(["sox", filepath, "-n", "stat"])` with `src_array`
defaulted to `None` and `decode_out_with_utf` defaulted to `True`. -/
def stat_pipeline (spawn : Option SpawnOk) :
    Except PyError (List (String × Option PyFloat)) :=
  stat_model (stat_call (soxRun spawn .noArray true))

/-- `file_info.silent` (lines 231-241), as a function of the looked-up
`"Mean    norm"` statistic and the threshold.  The guard
`mean_norm is not float("nan")` is a CPython identity test against a
freshly allocated float object and is therefore always true, which the
constant condition mirrors; a NaN still yields `True` because
`mean_norm >= threshold` is false for NaN. -/
def silent_decision (mean_norm : Option PyFloat) (threshold : PyFloat) : Bool :=
  match mean_norm with
  | none => false
  | some mn =>
    if true then
      (if mn.ge threshold then false else true)
    else true

/-! ## `sox/file_info.py`: output-file validation -/

/-- `os.path.dirname` (POSIX): everything up to the last `/`, with
trailing slashes then stripped unless the head is all slashes; the
empty string when there is no `/`. -/
def posix_dirname (p : String) : String :=
  let head := (p.data.reverse.dropWhile (fun c => c ≠ '/')).reverse
  if head.any (fun c => c ≠ '/') then ⟨rstripC ['/'] head⟩ else ⟨head⟩

/-- `pathlib.PurePath.name` for a plain POSIX path: the final
component, after dropping trailing slashes. -/
def path_name (p : String) : List Char :=
  let l := rstripC ['/'] p.data
  (l.reverse.takeWhile (fun c => c ≠ '/')).reverse

/-- `file_info.file_extension` (line 332):
`Path(filepath).suffix[1:].lower()` — the characters after the last
dot of the final component, lower-cased, provided that dot is neither
the first nor the last character of the component. -/
def file_extension (filepath : String) : String :=
  let name := path_name filepath
  let ext := (name.reverse.takeWhile (fun c => c ≠ '.')).reverse
  if name.contains '.' ∧ 0 < name.length - 1 - ext.length ∧ ext.length ≠ 0 then
    ⟨ext.map charLower⟩
  else ""

/-- The filesystem facts `file_info.validate_output_file` consults:
the current working directory, `os.access(p, os.W_OK)`, and
`os.path.exists(p)`. -/
structure FileSys where
  cwd : String
  accessW : String → Bool
  pathExists : String → Bool

/-- `os.access(p, os.W_OK)`: on the empty path (the `dirname` of a
bare filename) it is always `False`, whatever the filesystem holds. -/
def osAccessW (fs : FileSys) (p : String) : Bool :=
  if p = "" then false else fs.accessW p

/-- The non-fatal warnings `validate_output_file` can log. -/
inductive OutWarning
  | unsupportedExt
  | overwrite
deriving DecidableEq

/-- `file_info.validate_output_file` (lines 295-316): the literal path
`"-n"` returns at once; otherwise `IOError` is raised iff both
no-write conditions hold (`bool(dirname) or not access(cwd)`, and
`not access(dirname)`); past that point only warnings are logged
(unsupported extension, destination already exists) and the call
returns. -/
def validate_output_file (formats : List String) (fs : FileSys)
    (output_filepath : String) : Except PyError (List OutWarning) :=
  if output_filepath = "-n" then .ok []
  else
    let nowrite1 :=
      decide (posix_dirname output_filepath ≠ "") || !(osAccessW fs fs.cwd)
    let nowrite2 := !(osAccessW fs (posix_dirname output_filepath))
    if nowrite1 && nowrite2 then .error .ioError
    else
      let w1 :=
        if file_extension output_filepath ∈ formats then []
        else [OutWarning.unsupportedExt]
      let w2 := if fs.pathExists output_filepath then [OutWarning.overwrite] else []
      .ok (w1 ++ w2)

/-! ## Helper lemmas -/

/-- Splitting on a separator that does not occur yields the one-field
split. -/
theorem splitOnC_of_not_mem {c : Char} {l : List Char} (h : c ∉ l) :
    splitOnC c l = [l] := by
  induction l with
  | nil => rfl
  | cons x xs ih =>
    rw [List.mem_cons] at h
    push_neg at h
    simp [splitOnC, Ne.symm h.1, ih h.2]

/-! ## Claims -/

/-- C1: on the launch-failure path — `Popen` raising `OSError`
(executable not found) or a non-ndarray payload raising `TypeError` —
`core.sox` returns the triple `(1, None, None)`; and every invocation
outcome is either exactly that triple or has both output and error
text present, so no other status/None/None combination arises. -/
theorem sox_launch_failure_triple :
    (∀ (p : Payload) (d : Bool), soxRun none p d = (1, none, none)) ∧
    (∀ (sp : Option SpawnOk) (d : Bool), soxRun sp .other d = (1, none, none)) ∧
    (∀ (sp : Option SpawnOk) (p : Payload) (d : Bool),
      soxRun sp p d = (1, none, none) ∨
        ((soxRun sp p d).2.1.isSome = true ∧ (soxRun sp p d).2.2.isSome = true)) := by
  refine ⟨?_, ?_, ?_⟩
  · intro p d; cases p <;> rfl
  · intro sp d; cases sp <;> rfl
  · intro sp p d
    cases sp <;> cases p <;> simp [soxRun]

/-- C2: `bitrate`'s reply parsing maps `"128k"` to `128000.0`,
`"1.5M"` to `1500000.0` and the literal `"0"` to `None` as claimed,
but a suffix-free reply such as `"128"` is taken through
`float(output[:-1])`, which drops the final digit and yields `12.0`
rather than the claimed unchanged value `128.0`. -/
theorem bitrate_wrap_eval :
    bitrate_wrap "128k" = .ok (some (.val 128000)) ∧
    bitrate_wrap "1.5M" = .ok (some (.val 1500000)) ∧
    bitrate_wrap "0" = .ok none ∧
    bitrate_wrap "128" = .ok (some (.val 12)) := by
  exact ⟨by with_unfolding_all rfl, by with_unfolding_all rfl, rfl, rfl⟩

/-- C3 counterexample: on the claim's own example line (which has
padding spaces before the colon) the parsed dictionary has no entry
under the key "Mean    norm" — the verbatim key keeps the padding. -/
theorem parse_stat_example_key_mismatch :
    (parse_stat "Mean    norm         :      0.164103").lookup "Mean    norm" =
      none := rfl

/-- C3 (amended): a line with exactly one colon contributes the entry
whose key is the substring before the colon kept verbatim — trailing
spaces before the colon included — and whose value is the float parse
of the space-stripped substring after it (`None` on parse failure);
a line with zero or several colons contributes nothing; the claim's
example line therefore yields the key "Mean    norm         " (with
its padding), mapped to 0.164103. -/
theorem parse_stat_line_spec :
    (∀ (l k v : List Char), '\n' ∉ l → splitOnC ':' l = [k, v] →
      parse_stat ⟨l⟩ = [(⟨k⟩, pyParseFloatC (stripC [' '] v))]) ∧
    (∀ l : List Char, '\n' ∉ l → (splitOnC ':' l).length ≠ 2 →
      parse_stat ⟨l⟩ = []) ∧
    parse_stat "Mean    norm         :      0.164103" =
      [("Mean    norm         ", some (.val (164103 / 1000000)))] := by
  refine ⟨?_, ?_, by with_unfolding_all rfl⟩
  · intro l k v hnl hsplit
    simp [parse_stat, splitOnC_of_not_mem hnl, hsplit, dictSet]
  · intro l hnl hlen
    rcases hs : splitOnC ':' l with _ | ⟨x, _ | ⟨y, _ | ⟨z, t⟩⟩⟩ <;>
      simp [parse_stat, splitOnC_of_not_mem hnl, hs]
    exact absurd (by simp [hs]) hlen

/-- Witness for C3: the amended per-line facts evaluated on a line
with one colon and on a line with no colon. -/
theorem parse_stat_line_spec_witness :
    parse_stat "Length (seconds): 2.5" =
      [("Length (seconds)", some (.val (5 / 2)))] ∧
    parse_stat "no colon here" = [] := by
  constructor
  · have h := parse_stat_line_spec.1 "Length (seconds): 2.5".data
      "Length (seconds)".data " 2.5".data (by decide) (by decide)
    rw [h]
    with_unfolding_all rfl
  · exact parse_stat_line_spec.2.1 "no colon here".data (by decide) (by decide)

/-- C4 counterexample: `soxi` strips newline characters from both ends
of a successful reply, not only trailing ones — an output starting
with a newline comes back without it, unlike the claimed
trailing-only strip. -/
theorem soxi_strips_leading_too :
    soxi (fun _ => .ok "\nabc") "f.wav" "b" = .ok "abc" ∧
    rstripC ['\n', '\r'] "\nabc".data = "\nabc".data ∧
    ("abc" : String) ≠ "\nabc" := ⟨rfl, rfl, by decide⟩

/-- C4 (amended): an invalid field code makes `soxi` raise
`ValueError` with the subprocess call unreachable (the result is the
same under every launch oracle); a `CalledProcessError` becomes a
`SoxiError` carrying the tool's exit code; a successful reply is
returned with newline/carriage-return characters stripped from both
ends (`str.strip`), not only trailing ones. -/
theorem soxi_spec :
    (∀ (co co' : List String → CheckOutputR) (fp arg : String),
      arg ∉ SOXI_ARGS →
        soxi co fp arg = .error .valueError ∧ soxi co fp arg = soxi co' fp arg) ∧
    (∀ (co : List String → CheckOutputR) (fp arg : String) (rc : ℤ),
      arg ∈ SOXI_ARGS →
      co ["sox", "--i", "-" ++ arg, fp] = .calledProcessError rc →
        soxi co fp arg = .error (.soxiError rc)) ∧
    (∀ (co : List String → CheckOutputR) (fp arg out : String),
      arg ∈ SOXI_ARGS →
      co ["sox", "--i", "-" ++ arg, fp] = .ok out →
        soxi co fp arg = .ok (pyStrip ['\n', '\r'] out)) := by
  refine ⟨?_, ?_, ?_⟩
  · intro co co' fp arg h
    constructor <;> simp [soxi, h]
  · intro co fp arg rc h hco
    simp [soxi, h, hco]
  · intro co fp arg out h hco
    simp [soxi, h, hco]

/-- Witness for C4: the three amended branches evaluated at concrete
oracles and field codes. -/
theorem soxi_spec_witness :
    soxi (fun _ => .ok " x\n") "f.wav" "b" = .ok " x" ∧
    soxi (fun _ => .calledProcessError 2) "f.wav" "b" = .error (.soxiError 2) ∧
    soxi (fun _ => .ok "y") "f.wav" "q" = .error .valueError := by
  refine ⟨?_, ?_, ?_⟩
  · have h := soxi_spec.2.2 (fun _ => CheckOutputR.ok " x\n") "f.wav" "b" " x\n"
      (by decide) rfl
    rw [h]; rfl
  · exact soxi_spec.2.1 (fun _ => CheckOutputR.calledProcessError 2) "f.wav" "b" 2
      (by decide) rfl
  · exact (soxi_spec.1 (fun _ => CheckOutputR.ok "y")
      (fun _ => CheckOutputR.ok "z") "f.wav" "q" (by decide)).1

/-- C5: `bitdepth` and `num_samples` map the literal reply "0" to
`None` and any other integer reply to its integer value; `channels`
takes every integer reply literally, "0" included; `duration` maps a
reply parsing to exactly 0.0 to `None` and any other float reply to
its float value. -/
theorem typed_wrappers_sentinels :
    bitdepth_wrap "0" = .ok none ∧
    (∀ (s : String) (n : ℤ), pyParseInt s = some n → s ≠ "0" →
      bitdepth_wrap s = .ok (some n)) ∧
    num_samples_wrap "0" = .ok none ∧
    (∀ (s : String) (n : ℤ), pyParseInt s = some n → s ≠ "0" →
      num_samples_wrap s = .ok (some n)) ∧
    (∀ (s : String) (n : ℤ), pyParseInt s = some n → channels_wrap s = .ok n) ∧
    channels_wrap "0" = .ok 0 ∧
    (∀ (s : String) (f : PyFloat), pyParseFloat s = some f → f.eqZero = true →
      duration_wrap s = .ok none) ∧
    (∀ (s : String) (f : PyFloat), pyParseFloat s = some f → f.eqZero = false →
      duration_wrap s = .ok (some f)) := by
  refine ⟨rfl, ?_, rfl, ?_, ?_, rfl, ?_, ?_⟩
  · intro s n h hne; simp [bitdepth_wrap, hne, h]
  · intro s n h hne; simp [num_samples_wrap, hne, h]
  · intro s n h; simp [channels_wrap, h]
  · intro s f h hz; simp [duration_wrap, h, hz]
  · intro s f h hz; simp [duration_wrap, h, hz]

/-- Witness for C5: the wrappers evaluated on concrete replies through
the theorem. -/
theorem typed_wrappers_sentinels_witness :
    bitdepth_wrap "16" = .ok (some 16) ∧
    num_samples_wrap "44100" = .ok (some 44100) ∧
    channels_wrap "2" = .ok 2 ∧
    duration_wrap "0.0" = .ok none ∧
    duration_wrap "2.5" = .ok (some (.val (5 / 2))) := by
  refine ⟨?_, ?_, ?_, ?_, ?_⟩
  · exact typed_wrappers_sentinels.2.1 "16" 16 rfl (by decide)
  · exact typed_wrappers_sentinels.2.2.2.1 "44100" 44100 rfl (by decide)
  · exact typed_wrappers_sentinels.2.2.2.2.1 "2" 2 rfl
  · exact typed_wrappers_sentinels.2.2.2.2.2.2.1 "0.0" (.val 0)
      (by with_unfolding_all rfl) rfl
  · exact typed_wrappers_sentinels.2.2.2.2.2.2.2 "2.5" (.val (5 / 2))
      (by with_unfolding_all rfl) (by with_unfolding_all rfl)

/-- C6 counterexample: for the 2-by-2 buffer with rows (0, 1) and
(2, 3), the bytes `core.sox` writes to stdin differ from the
column-major serialization of that buffer. -/
theorem sox_stdin_not_column_major :
    sox_stdin_bytes ⟨2, 2, fun i j => 2 * i + j⟩ ≠
      tobytesF ⟨2, 2, fun i j => 2 * i + j⟩ := by decide

/-- C6 (amended): the byte sequence written to the subprocess's stdin,
`src_array.T.tobytes(order="F")`, equals the row-major (C-order)
serialization of the input buffer — equivalently, the column-major
serialization of its transpose — not the column-major serialization
of the buffer itself. -/
theorem sox_stdin_row_major :
    ∀ a : NpArray, sox_stdin_bytes a = tobytesC a := fun _ => rfl

/-- C7: `silent` is decided by the parsed "Mean    norm" statistic
alone — an absent value yields `False`, a NaN yields `True` (the
`mean_norm >= threshold` comparison is false for NaN), and an ordinary
float yields `True` exactly when it is below the threshold; with
threshold 0.001 a mean norm of 0.0005 is silent and 0.5 is not. -/
theorem silent_decision_spec :
    (∀ t, silent_decision none t = false) ∧
    (∀ t, silent_decision (some .nan) t = true) ∧
    (∀ q t : ℚ, silent_decision (some (.val q)) (.val t) = decide (q < t)) ∧
    silent_decision (some (.val (5 / 10000))) (.val (1 / 1000)) = true ∧
    silent_decision (some (.val (1 / 2))) (.val (1 / 1000)) = false := by
  refine ⟨fun t => rfl, fun t => by cases t <;> rfl, ?_, by with_unfolding_all rfl,
    by with_unfolding_all rfl⟩
  intro q t
  simp only [silent_decision, PyFloat.ge, if_true]
  by_cases h : t ≤ q
  · simp [h, not_lt.mpr h]
  · simp [h, lt_of_not_le h]

/-- C8: `validate_output_file` on the literal path "-n" returns at
once whatever the filesystem holds; on every other path it raises
`IOError` exactly when the destination directory — the path's
directory component, or the current working directory for a bare
filename — is not writable; when that directory is writable the call
returns, at most logging warnings for an unsupported extension or an
existing destination. -/
theorem validate_output_spec :
    (∀ (formats : List String) (fs : FileSys),
      validate_output_file formats fs "-n" = .ok []) ∧
    (∀ (formats : List String) (fs : FileSys) (p : String), p ≠ "-n" →
      (validate_output_file formats fs p = .error .ioError ↔
        osAccessW fs (if posix_dirname p = "" then fs.cwd else posix_dirname p) =
          false)) ∧
    (∀ (formats : List String) (fs : FileSys) (p : String), p ≠ "-n" →
      osAccessW fs (if posix_dirname p = "" then fs.cwd else posix_dirname p) =
        true →
      ∃ ws, validate_output_file formats fs p = .ok ws) := by
  refine ⟨fun formats fs => rfl, ?_, ?_⟩
  · intro formats fs p hp
    have h0 : osAccessW fs "" = false := rfl
    by_cases hd : posix_dirname p = ""
    · rw [if_pos hd]
      cases ha : osAccessW fs fs.cwd <;>
        simp [validate_output_file, if_neg hp, hd, ha, h0]
    · rw [if_neg hd]
      cases ha : osAccessW fs (posix_dirname p) <;>
        simp [validate_output_file, if_neg hp, hd, ha]
  · intro formats fs p hp ha
    have h0 : osAccessW fs "" = false := rfl
    by_cases hd : posix_dirname p = ""
    · rw [if_pos hd] at ha
      refine ⟨(if file_extension p ∈ formats then [] else [OutWarning.unsupportedExt]) ++
        (if fs.pathExists p then [OutWarning.overwrite] else []), ?_⟩
      simp [validate_output_file, if_neg hp, hd, ha, h0]
    · rw [if_neg hd] at ha
      refine ⟨(if file_extension p ∈ formats then [] else [OutWarning.unsupportedExt]) ++
        (if fs.pathExists p then [OutWarning.overwrite] else []), ?_⟩
      simp [validate_output_file, if_neg hp, hd, ha]

/-- Witness for C8: the three branches evaluated on a concrete
filesystem — "-n" passes, an unwritable destination directory raises
`IOError`, a writable one returns. -/
theorem validate_output_spec_witness :
    validate_output_file [] ⟨"/home", fun _ => true, fun _ => false⟩ "-n" =
      .ok [] ∧
    validate_output_file [] ⟨"/home", fun _ => false, fun _ => false⟩ "sub/out.wav" =
      .error .ioError ∧
    (∃ ws, validate_output_file [] ⟨"/home", fun _ => true, fun _ => false⟩
      "sub/out.wav" = .ok ws) := by
  refine ⟨validate_output_spec.1 [] _, ?_, ?_⟩
  · exact (validate_output_spec.2.1 [] ⟨"/home", fun _ => false, fun _ => false⟩
      "sub/out.wav" (by decide)).mpr (by with_unfolding_all rfl)
  · exact validate_output_spec.2.2 [] ⟨"/home", fun _ => true, fun _ => false⟩
      "sub/out.wav" (by decide) (by with_unfolding_all rfl)

/-- C9: for a non-empty argument list, `core.sox` and `core.play`
normalize the first argument to the canonical tool name — replaced in
place on a case-insensitive match, inserted in front otherwise — so
the head of the executed argument list is always the canonical name
and the remaining arguments keep their order. -/
theorem normalize_args_first_canonical :
    ∀ (a : String) (rest : List String),
      (normalize_args "sox" (a :: rest) =
        .ok (if pyLower a = "sox" then "sox" :: rest else "sox" :: a :: rest)) ∧
      ((normalize_args "sox" (a :: rest)).toOption.bind List.head? = some "sox") ∧
      (normalize_args "play" (a :: rest) =
        .ok (if pyLower a = "play" then "play" :: rest else "play" :: a :: rest)) ∧
      ((normalize_args "play" (a :: rest)).toOption.bind List.head? =
        some "play") := by
  intro a rest
  refine ⟨?_, ?_, ?_, ?_⟩
  · by_cases h : pyLower a = "sox" <;> simp [normalize_args, h]
  · by_cases h : pyLower a = "sox" <;> simp [normalize_args, h, Except.toOption]
  · by_cases h : pyLower a = "play" <;> simp [normalize_args, h]
  · by_cases h : pyLower a = "play" <;> simp [normalize_args, h, Except.toOption]

/-- C10: when the underlying sox invocation fails to launch, its `err`
component is `None`, `_stat_call` passes that `None` through, and
`stat` applies `split` to it — an `AttributeError`, so the stat
pipeline never returns a dictionary on the launch-failure path. -/
theorem stat_launch_failure_faults :
    stat_call (soxRun none .noArray true) = none ∧
    stat_pipeline none = .error .attributeError :=
  ⟨rfl, rfl⟩
